import Mathlib

/-!
Verification of the redwood generator/destroy pipeline, the GraphQL
type-generation command, the API-server option resolver and the router
`Link` component, as shallowly embedded Lean definitions.
-/

namespace Redwood

/-! ## Generic list helpers used by the route-table editor -/

/-- Remove the first element satisfying `p`; the rest of the list is kept
verbatim.  This is the removal discipline of the route-table editor. -/
def removeFirst (p : α → Bool) : List α → List α
  | [] => []
  | a :: as => if p a then as else a :: removeFirst p as

theorem removeFirst_of_countP_zero (p : α → Bool) (l : List α)
    (h : l.countP p = 0) : removeFirst p l = l := by
  induction l with
  | nil => rfl
  | cons a as ih =>
    rw [List.countP_cons] at h
    by_cases hpa : p a
    · simp [hpa] at h
    · simp [removeFirst, hpa, ih (by omega)]

theorem filter_not_of_countP_zero (p : α → Bool) (l : List α)
    (h : l.countP p = 0) : l.filter (fun a => ! p a) = l := by
  induction l with
  | nil => rfl
  | cons a as ih =>
    rw [List.countP_cons] at h
    by_cases hpa : p a
    · simp [hpa] at h
    · simp [List.filter, hpa, ih (by omega)]

theorem removeFirst_eq_filter_of_countP_one (p : α → Bool) (l : List α)
    (h : l.countP p = 1) : removeFirst p l = l.filter (fun a => ! p a) := by
  induction l with
  | nil => rfl
  | cons a as ih =>
    rw [List.countP_cons] at h
    by_cases hpa : p a
    · rw [if_pos hpa] at h
      have h0 : as.countP p = 0 := by omega
      simp [removeFirst, List.filter, hpa, filter_not_of_countP_zero p as h0]
    · rw [if_neg hpa] at h
      simp [removeFirst, List.filter, hpa, ih (by omega)]

theorem length_filter_not_add_countP (p : α → Bool) (l : List α) :
    (l.filter (fun a => ! p a)).length + l.countP p = l.length := by
  induction l with
  | nil => rfl
  | cons a as ih =>
    by_cases hpa : p a
    · simp [List.filter, List.countP_cons, hpa]; omega
    · simp [List.filter, List.countP_cons, hpa]; omega

/-! ## Substring search over character lists -/

/-- `charsHavePre needle hay` holds when `needle` is an initial segment of
`hay`. -/
def charsHavePre : List Char → List Char → Bool
  | [], _ => true
  | _ :: _, [] => false
  | a :: as, b :: bs => a == b && charsHavePre as bs

/-- `charsContain needle hay` holds when `needle` occurs contiguously
somewhere inside `hay`. -/
def charsContain (needle : List Char) : List Char → Bool
  | [] => needle.isEmpty
  | b :: bs => charsHavePre needle (b :: bs) || charsContain needle bs

/-- Substring test on strings, via their character lists. -/
def strContains (hay needle : String) : Bool :=
  charsContain needle.data hay.data

/-! ## Splitting text into lines and joining it back -/

/-- Split a character list on the newline character.  Mirrors how the
route-table text is viewed as a list of lines. -/
def splitLines : List Char → List (List Char)
  | [] => [[]]
  | c :: cs =>
    if c = '\n' then [] :: splitLines cs
    else
      match splitLines cs with
      | [] => [[c]]
      | l :: ls => (c :: l) :: ls

/-- Join lines back with newline separators. -/
def joinLines : List (List Char) → List Char
  | [] => []
  | [l] => l
  | l :: ls => l ++ '\n' :: joinLines ls

theorem splitLines_ne_nil (cs : List Char) : splitLines cs ≠ [] := by
  cases cs with
  | nil => simp [splitLines]
  | cons c cs =>
    simp only [splitLines]
    by_cases hc : c = '\n'
    · simp [hc]
    · simp only [hc, if_false]
      cases h : splitLines cs <;> simp

theorem joinLines_cons (l : List Char) (ls : List (List Char)) (h : ls ≠ []) :
    joinLines (l :: ls) = l ++ '\n' :: joinLines ls := by
  cases ls with
  | nil => exact absurd rfl h
  | cons a as => rfl

theorem joinLines_splitLines (cs : List Char) :
    joinLines (splitLines cs) = cs := by
  induction cs with
  | nil => rfl
  | cons c cs ih =>
    by_cases hc : c = '\n'
    · rw [show splitLines (c :: cs) = [] :: splitLines cs by simp [splitLines, hc]]
      rw [joinLines_cons _ _ (splitLines_ne_nil cs), ih, hc]
      rfl
    · cases h : splitLines cs with
      | nil => exact absurd h (splitLines_ne_nil cs)
      | cons l ls =>
        rw [show splitLines (c :: cs) = (c :: l) :: ls by simp [splitLines, hc, h]]
        rw [h] at ih
        cases ls with
        | nil =>
          have hl : l = cs := by simpa [joinLines] using ih
          simp [joinLines, hl]
        | cons a as =>
          rw [joinLines_cons _ _ (by simp)]
          rw [joinLines_cons _ _ (by simp)] at ih
          simp [ih]

/-! ## Destroy-page pipeline

The destroy-page generator (`files`, `tasks`, the route-table editor and
the in-memory file system the tasks mutate) is exercised by the repository
tests but its implementation is not among the provided sources, so it is
modelled from the specification. -/

namespace DestroyPage

/-- Generator target: a logical entity name plus options (stories flag,
tests flag, custom route path).  Immutable once constructed. -/
structure PageOptions where
  name : String
  stories : Bool := false
  tests : Bool := false
  path : Option String := none
deriving DecidableEq

/-- Modelled from the spec: the resolver fails if the name is empty or not
a valid identifier. -/
def validIdent (s : String) : Bool :=
  match s.data with
  | [] => false
  | c :: cs => (c.isAlpha || c == '_') && cs.all (fun d => d.isAlphanum || d == '_')

/-- Modelled from the spec: default path-naming convention derived from the
name — kebab-case of the entity name behind a leading slash
(`About ↦ /about`). -/
def kebabTail : List Char → List Char
  | [] => []
  | c :: cs => (if c.isUpper then ['-', c.toLower] else [c]) ++ kebabTail cs

def paramCase (s : String) : String :=
  match s.data with
  | [] => ""
  | c :: cs => ⟨c.toLower :: kebabTail cs⟩

/-- Modelled from the spec: the route's `name` attribute derived from the
entity name — the name with its first letter lowered (`About ↦ about`). -/
def camelCase (s : String) : String :=
  match s.data with
  | [] => ""
  | c :: cs => ⟨c.toLower :: cs⟩

/-- The route path the destroy target denotes: the custom path option when
present, the default naming convention otherwise. -/
def routeTargetPath (opts : PageOptions) : String :=
  opts.path.getD ("/" ++ paramCase opts.name)

/-- The route name attribute the destroy target denotes. -/
def routeName (opts : PageOptions) : String :=
  camelCase opts.name

/-- Root of the page's generated files under the web-side source tree. -/
def pageBase (name : String) : String :=
  "web/src/pages/" ++ name ++ "Page/" ++ name ++ "Page"

/-- The project's route-table file (`getPaths().web.routes`). -/
def webRoutesPath : String := "web/src/Routes.js"

/-- Modelled from the spec: the path/name resolver.  Given a bare entity
name and the options bag, produce the canonical file set (component file,
plus stories and test files when those flags are set) rooted at the
project's web-side source directory; fail if the name is empty or not a
valid identifier.  Contents are irrelevant to the destroy pipeline and are
modelled as empty. -/
def files (opts : PageOptions) : Except String (List (String × String)) :=
  if validIdent opts.name then
    Except.ok
      ([(pageBase opts.name ++ ".js", "")]
        ++ (if opts.stories then [(pageBase opts.name ++ ".stories.js", "")] else [])
        ++ (if opts.tests then [(pageBase opts.name ++ ".test.js", "")] else []))
  else
    Except.error "name must be a valid identifier"

/-- The shared file-system abstraction: an association list from paths to
text contents. -/
abbrev FS : Type := List (String × String)

def fsHas (p : String) (fs : FS) : Bool :=
  (fs : List (String × String)).any (fun kv => kv.1 == p)

def fsErase (p : String) (fs : FS) : FS :=
  (fs : List (String × String)).filter (fun kv => !(kv.1 == p))

def fsRead (p : String) (fs : FS) : Option String :=
  ((fs : List (String × String)).find? (fun kv => kv.1 == p)).map Prod.snd

/-- Overwrite the first entry with the given key, appending when absent. -/
def fsWrite (p : String) (v : String) : FS → FS
  | [] => [(p, v)]
  | kv :: rest => if kv.1 == p then (p, v) :: rest else kv :: fsWrite p v rest

/-- A route-table line matches the destroy target when it carries the
target's path attribute or the target's name attribute (the spec: a route
entry is identified by its path/name attributes). -/
def lineMatch (opts : PageOptions) (line : List Char) : Bool :=
  charsContain ("path=\"" ++ routeTargetPath opts ++ "\"").data line
    || charsContain ("name=\"" ++ routeName opts ++ "\"").data line

/-- Modelled from the spec: the route-table editor.  Locate the line
matching the target's path or name attribute and remove exactly that line,
preserving all other lines and the newline joining verbatim; leave the
text unchanged when no line matches. -/
def removeRouteLine (opts : PageOptions) (text : String) : String :=
  ⟨joinLines (removeFirst (lineMatch opts) (splitLines text.data))⟩

/-- A task: a name plus a deferred run operation over the file system that
may report a failure.  Tasks are data until `run` is applied. -/
structure Task where
  title : String
  run : FS → FS × Option String

/-- Deferred operation of the delete task: unlink every generated file in
order; a missing file is a per-task failure that ends the task. -/
def deleteFilesRun : List String → FS → FS × Option String
  | [], fs => (fs, none)
  | p :: ps, fs =>
    if fsHas p fs then deleteFilesRun ps (fsErase p fs)
    else (fs, some ("no such file: " ++ p))

/-- Deferred operation of the route-edit task: read the route table, drop
the matching line, write the table back.  A missing route file is a
per-task failure; a missing route line is a tolerated no-op. -/
def routeEditRun (opts : PageOptions) (fs : FS) : FS × Option String :=
  match fsRead webRoutesPath fs with
  | none => (fs, some ("no such file: " ++ webRoutesPath))
  | some content => (fsWrite webRoutesPath (removeRouteLine opts content) fs, none)

/-- Modelled from the spec: the task list builder.  Resolve the file set,
then return the ordered list of inert tasks: (1) delete each generated
file, (2) rewrite the route table to remove the matching route line.
Invalid input is reported immediately and no tasks are built. -/
def tasks (opts : PageOptions) : Except String (List Task) := do
  let f ← files opts
  pure
    [ ⟨"Destroying page files...", deleteFilesRun (f.map Prod.fst)⟩,
      ⟨"Cleaning up route file...", routeEditRun opts⟩ ]

end DestroyPage

/-! ## The type-generation command (`generate` / `run`) -/

namespace TypesGen

/-- A JavaScript value as seen by the `typeof x === 'string'` filter: a
string, or anything else. -/
inductive JsVal where
  | str (s : String)
  | other
deriving DecidableEq

def jsIsString : JsVal → Bool
  | JsVal.str _ => true
  | JsVal.other => false

def jsAsString : JsVal → String
  | JsVal.str s => s
  | JsVal.other => ""

/-- An aggregated error: human-readable message plus underlying cause. -/
structure GenError where
  message : String
  error : String
deriving DecidableEq

/-- Result of `generateGraphQLSchema()`. -/
structure SchemaResult where
  schemaPath : String
  errors : List GenError

/-- Result of `generateTypeDefs()`. -/
structure TypeDefsResult where
  typeDefFiles : List JsVal
  errors : List GenError

structure GenerateResult where
  files : List JsVal
  errors : List GenError

/-- `generate`: push a non-empty `schemaPath`, append the type-definition
files, keep only strings, and concatenate the two error lists. -/
def generate (sr : SchemaResult) (tr : TypeDefsResult) : GenerateResult :=
  let files0 : List JsVal :=
    if sr.schemaPath ≠ "" then [JsVal.str sr.schemaPath] else []
  { files := (files0 ++ tr.typeDefFiles).filter jsIsString
    errors := sr.errors ++ tr.errors }

/-- One console line: stdout (`console.log`) or stderr (`console.error`). -/
inductive OutLine where
  | log (s : String)
  | err (s : String)
deriving DecidableEq

/-- First-occurrence replacement, as JavaScript `String.prototype.replace`
with a string pattern. -/
def replaceFirstChars (pat rep : List Char) : List Char → List Char
  | [] => []
  | c :: cs =>
    if charsHavePre pat (c :: cs) then rep ++ (c :: cs).drop pat.length
    else c :: replaceFirstChars pat rep cs

def jsReplace (s pat rep : String) : String :=
  ⟨replaceFirstChars pat.data rep.data s.data⟩

/-- `run`: print the generated files with the project base stripped, then
either report success, or set a non-zero exit code (`process.exitCode ||= 1`)
and print each error's message and underlying cause. -/
def run (base : String) (exitCode0 : Nat) (sr : SchemaResult)
    (tr : TypeDefsResult) : List OutLine × Nat :=
  let g := generate sr tr
  let head :=
    [OutLine.log "Generating...", OutLine.log ""]
      ++ g.files.map (fun f => OutLine.log ("- " ++ jsReplace (jsAsString f) (base ++ "/") ""))
      ++ [OutLine.log ""]
  if g.errors.isEmpty then
    (head ++ [OutLine.log "... done.", OutLine.log ""], exitCode0)
  else
    (head ++ [OutLine.log "... done with errors.", OutLine.log ""]
        ++ g.errors.flatMap
            (fun e => [OutLine.err e.message, OutLine.log "", OutLine.err e.error, OutLine.log ""]),
      if exitCode0 = 0 then 1 else exitCode0)

/-- Concrete `generateGraphQLSchema` result used to exercise `run`. -/
def srW : SchemaResult := ⟨"", [⟨"schema broke", "causeA"⟩]⟩

/-- Concrete `generateTypeDefs` result used to exercise `run`. -/
def trW : TypeDefsResult := ⟨[], [⟨"typedefs broke", "causeB"⟩]⟩

/-- Concrete `generateGraphQLSchema` result used to exercise `generate`. -/
def srW8 : SchemaResult := ⟨"", []⟩

/-- Concrete `generateTypeDefs` result with a non-string entry. -/
def trW8 : TypeDefsResult := ⟨[JsVal.str "a.d.ts", JsVal.other], [⟨"m", "c"⟩]⟩

end TypesGen

/-! ## API-server option resolution (`createServerHelpers.ts`) -/

namespace ServerHelpers

/-- `fastifyServerOptions`, keeping only the fields this module touches;
the logger value type is abstract. -/
structure FastifyOpts (L : Type) where
  requestTimeout : Option Rat
  logger : Option L

/-- `CreateServerOptions` as passed to `resolveOptions`. -/
structure CreateServerOptions (L : Type) where
  apiRootPath : Option String := none
  logger : Option L := none
  fastifyServerOptions : Option (FastifyOpts L) := none
  parseArgs : Option Bool := none

/-- The `--host` / `--port` / `--apiRootPath` values produced by
`parseArgs` (all declared with type string). -/
structure ParsedValues where
  host : Option String := none
  port : Option String := none
  apiRootPath : Option String := none

/-- The host environment of `resolveOptions`: `getAPIHost()`,
`getAPIPort()`, the default logger, and the behaviour of the JavaScript
unary `+` on strings (`none` models NaN). -/
structure ApiEnv (L : Type) where
  apiHost : String
  apiPort : Rat
  defaultLogger : L
  toNumber : String → Option Rat

structure ResolvedOptions (L : Type) where
  apiRootPath : String
  fastifyServerOptions : FastifyOpts L
  host : String
  port : Rat

def DEFAULT_REQUEST_TIMEOUT : Rat := 15000

/-- Modelled from the spec: `coerceRootPath` from the fastify-web helpers
(not among the provided sources) — make sure the root path starts and ends
with a slash. -/
def coerceRootPath (path : String) : String :=
  let pre := if path.data.head? = some '/' then "" else "/"
  let suf := if path.data.getLast? = some '/' then "" else "/"
  pre ++ path ++ suf

/-- `resolveOptions`: set defaults, then (when `options.parseArgs` is
truthy) let truthy command-line values override host, port and
apiRootPath, rejecting a `--port` whose numeric coercion is NaN; finally
coerce the root path. -/
def resolveOptions (env : ApiEnv L) (options : CreateServerOptions L)
    (values : ParsedValues) : Except String (ResolvedOptions L) :=
  let logger := options.logger.getD env.defaultLogger
  let fso0 : FastifyOpts L := options.fastifyServerOptions.getD
    { requestTimeout := some DEFAULT_REQUEST_TIMEOUT, logger := some logger }
  let fso : FastifyOpts L :=
    { requestTimeout := some (fso0.requestTimeout.getD DEFAULT_REQUEST_TIMEOUT)
      logger := some logger }
  let r0 : ResolvedOptions L :=
    { apiRootPath := options.apiRootPath.getD "/"
      fastifyServerOptions := fso
      host := env.apiHost
      port := env.apiPort }
  let step : Except String (ResolvedOptions L) :=
    if options.parseArgs.getD false then
      let r1 := match values.host with
        | some h => if h ≠ "" then { r0 with host := h } else r0
        | none => r0
      let r2e : Except String (ResolvedOptions L) := match values.port with
        | some p =>
          if p ≠ "" then
            match env.toNumber p with
            | none => Except.error "`port` must be an integer"
            | some n => Except.ok { r1 with port := n }
          else Except.ok r1
        | none => Except.ok r1
      match r2e with
      | Except.error e => Except.error e
      | Except.ok r2 =>
        Except.ok (match values.apiRootPath with
          | some a => if a ≠ "" then { r2 with apiRootPath := a } else r2
          | none => r2)
    else Except.ok r0
  match step with
  | Except.error e => Except.error e
  | Except.ok r => Except.ok { r with apiRootPath := coerceRootPath r.apiRootPath }

/-- Concrete environment used to exercise `resolveOptions`: only the
string `4000` coerces to a number. -/
def envW : ApiEnv Unit :=
  ⟨"::", 8911, (), fun s => if s = "4000" then some 4000 else none⟩

/-- Concrete options with argument parsing enabled. -/
def optionsW : CreateServerOptions Unit :=
  { parseArgs := some true }

def valuesPortBad : ParsedValues := { port := some "abc" }

def valuesPortGood : ParsedValues := { port := some "4000" }

def valuesNone : ParsedValues := {}

end ServerHelpers

/-! ## The router `Link` component's click handler -/

namespace Router

structure ClickEvent where
  button : Nat
  altKey : Bool
  ctrlKey : Bool
  metaKey : Bool
  shiftKey : Bool
deriving DecidableEq

/-- What a user-supplied `onClick` handler returns, as seen by the
`typeof result !== 'boolean'` test. -/
inductive ClickResult where
  | boolean (b : Bool)
  | nonBoolean
deriving DecidableEq

/-- The observable effects of one click on the anchor. -/
structure HandlerEffects where
  prevented : Bool
  navigatedTo : Option String
deriving DecidableEq

/-- The `Link` component's `onClick` handler: ignore secondary-button and
modified clicks; otherwise prevent the default and navigate, unless the
user handler returns the boolean `false`.  `toUrl` models the `to` prop. -/
def linkClickHandler (toUrl : String) (onClick : Option (ClickEvent → ClickResult))
    (e : ClickEvent) : HandlerEffects :=
  if e.button != 0 || e.altKey || e.ctrlKey || e.metaKey || e.shiftKey then
    { prevented := false, navigatedTo := none }
  else
    match onClick with
    | some f =>
      match f e with
      | ClickResult.boolean false => { prevented := true, navigatedTo := none }
      | _ => { prevented := true, navigatedTo := some toUrl }
    | none => { prevented := true, navigatedTo := some toUrl }

/-- Whether the user handler blocks navigation: it is present and returns
the boolean `false` on this event. -/
def blocksNav (onClick : Option (ClickEvent → ClickResult)) (e : ClickEvent) : Bool :=
  match onClick with
  | some f =>
    match f e with
    | ClickResult.boolean false => true
    | _ => false
  | none => false

/-- A user handler that returns the boolean `false`. -/
def onClickFalse : ClickEvent → ClickResult := fun _ => ClickResult.boolean false

/-- An unmodified primary-button click. -/
def plainClick : ClickEvent := ⟨0, false, false, false, false⟩

/-- A middle-button click. -/
def middleClick : ClickEvent := ⟨1, false, false, false, false⟩

end Router

/-! ## Theorems: destroy-page pipeline -/

namespace DestroyPage

theorem fsWrite_fsRead (p v : String) (fs : FS) (h : fsRead p fs = some v) :
    fsWrite p v fs = fs := by
  induction fs with
  | nil => simp [fsRead] at h
  | cons kv rest ih =>
    obtain ⟨k, w⟩ := kv
    by_cases hk : (k == p) = true
    · have hkp : k = p := by simpa using hk
      subst hkp
      simp only [fsRead, List.find?, beq_self_eq_true, Option.map_some'] at h
      injection h with hwv
      subst hwv
      simp [fsWrite]
    · simp only [Bool.not_eq_true] at hk
      simp only [fsRead, List.find?, hk] at h
      simp [fsWrite, hk, ih (by simpa [fsRead] using h)]

theorem mk_data (s : String) : String.mk s.data = s := rfl

theorem pageBase_append_ne (n : String) {a b : String} (hab : a ≠ b) :
    pageBase n ++ a ≠ pageBase n ++ b := by
  intro hcon
  apply hab
  have hd := congrArg String.data hcon
  rw [String.data_append, String.data_append] at hd
  exact String.ext (List.append_cancel_left hd)

theorem files_keys_nodup (opts : PageOptions) (f : List (String × String))
    (h : files opts = Except.ok f) : (f.map Prod.fst).Nodup := by
  unfold files at h
  by_cases hv : validIdent opts.name
  · rw [if_pos hv] at h
    cases h
    obtain ⟨n, s, t, pth⟩ := opts
    dsimp only at hv ⊢
    cases s <;> cases t
    · simp
    · simp
      exact pageBase_append_ne n (by decide)
    · simp
      exact pageBase_append_ne n (by decide)
    · simp
      refine ⟨⟨?_, ?_⟩, ?_⟩ <;> exact pageBase_append_ne n (by decide)
  · rw [if_neg hv] at h
    cases h

theorem deleteFilesRun_generated (f rest : FS)
    (hnd : (f.map Prod.fst).Nodup)
    (hdisj : ∀ p ∈ f.map Prod.fst, p ∉ rest.map Prod.fst) :
    deleteFilesRun (f.map Prod.fst) (f ++ rest) = (rest, none) := by
  induction f with
  | nil => rfl
  | cons kv f1 ih =>
    obtain ⟨k, v⟩ := kv
    simp only [List.map_cons, List.nodup_cons, List.mem_map] at hnd
    have hhas : fsHas k (((k, v) :: f1) ++ rest) = true := by
      simp [fsHas]
    have h1 : List.filter (fun kv => !(kv.1 == k)) f1 = f1 := by
      apply List.filter_eq_self.mpr
      intro a ha
      simp only [Bool.not_eq_true', beq_eq_false_iff_ne, ne_eq]
      intro hcon
      exact hnd.1 ⟨a, ha, hcon⟩
    have h2 : List.filter (fun kv => !(kv.1 == k)) rest = rest := by
      apply List.filter_eq_self.mpr
      intro a ha
      simp only [Bool.not_eq_true', beq_eq_false_iff_ne, ne_eq]
      intro hcon
      exact hdisj k (by simp) (List.mem_map.mpr ⟨a, ha, hcon⟩)
    have herase : fsErase k (((k, v) :: f1) ++ rest) = f1 ++ rest := by
      simp only [fsErase, List.cons_append, List.filter_cons, beq_self_eq_true,
        Bool.not_true, List.filter_append, h1, h2]
      exact if_neg (by decide)
    simp only [List.map_cons, deleteFilesRun, hhas, if_true, herase]
    exact ih hnd.2 (fun p hp => hdisj p (by simp [hp]))

/-- C1: on a route table with exactly one line matching the destroy
target's path or name attribute, the route editor removes exactly that
line: the remaining table is the original non-matching lines, byte for
byte and in order, and it has one line fewer. -/
theorem C1_route_edit_removes_single_matching_line (opts : PageOptions)
    (text : String)
    (h : (splitLines text.data).countP (lineMatch opts) = 1) :
    removeRouteLine opts text
        = String.mk (joinLines ((splitLines text.data).filter (fun l => ! lineMatch opts l)))
      ∧ ((splitLines text.data).filter (fun l => ! lineMatch opts l)).length + 1
          = (splitLines text.data).length := by
  constructor
  · unfold removeRouteLine
    rw [removeFirst_eq_filter_of_countP_one _ _ h]
  · have := length_filter_not_add_countP (lineMatch opts) (splitLines text.data)
    omega

/-- C1 witness: destroying page `About` on the test route table removes
only the `/about` route line. -/
theorem C1_route_edit_witness :
    (splitLines ("<Routes>\n  <Route path=\"/about\" page={AboutPage} name=\"about\" />\n</Routes>").data).countP
        (lineMatch ⟨"About", false, false, none⟩) = 1
      ∧ (removeRouteLine ⟨"About", false, false, none⟩
            "<Routes>\n  <Route path=\"/about\" page={AboutPage} name=\"about\" />\n</Routes>"
          = String.mk (joinLines
              ((splitLines ("<Routes>\n  <Route path=\"/about\" page={AboutPage} name=\"about\" />\n</Routes>").data).filter
                (fun l => ! lineMatch ⟨"About", false, false, none⟩ l)))
        ∧ ((splitLines ("<Routes>\n  <Route path=\"/about\" page={AboutPage} name=\"about\" />\n</Routes>").data).filter
              (fun l => ! lineMatch ⟨"About", false, false, none⟩ l)).length + 1
            = (splitLines ("<Routes>\n  <Route path=\"/about\" page={AboutPage} name=\"about\" />\n</Routes>").data).length) :=
  ⟨by decide, C1_route_edit_removes_single_matching_line _ _ (by decide)⟩

/-- C2: destroying the file set produced by generating the same target
with the same options removes exactly the generated files — the rest of
the file system survives untouched, no error is reported, and the number
of files removed equals the number of files generated. -/
theorem C2_destroy_removes_exactly_generated (opts : PageOptions)
    (f rest : List (String × String)) (hf : files opts = Except.ok f)
    (hdisj : ∀ p ∈ f.map Prod.fst, p ∉ rest.map Prod.fst) :
    deleteFilesRun (f.map Prod.fst) (f ++ rest) = (rest, none)
      ∧ (f ++ rest).length - rest.length = (f.map Prod.fst).length := by
  refine ⟨deleteFilesRun_generated f rest (files_keys_nodup opts f hf) hdisj, ?_⟩
  simp

/-- C2 witness: the `About` page with stories and tests, on a file system
that also holds the route table. -/
theorem C2_destroy_witness :
    files ⟨"About", true, true, none⟩ = Except.ok
        [(pageBase "About" ++ ".js", ""), (pageBase "About" ++ ".stories.js", ""),
          (pageBase "About" ++ ".test.js", "")]
      ∧ (deleteFilesRun
            ([(pageBase "About" ++ ".js", ""), (pageBase "About" ++ ".stories.js", ""),
                (pageBase "About" ++ ".test.js", "")].map Prod.fst)
            ([(pageBase "About" ++ ".js", ""), (pageBase "About" ++ ".stories.js", ""),
                (pageBase "About" ++ ".test.js", "")] ++ [(webRoutesPath, "<Routes>\n</Routes>")])
          = ([(webRoutesPath, "<Routes>\n</Routes>")], none)
        ∧ ([(pageBase "About" ++ ".js", ""), (pageBase "About" ++ ".stories.js", ""),
              (pageBase "About" ++ ".test.js", "")] ++ [(webRoutesPath, "<Routes>\n</Routes>")]).length
            - [(webRoutesPath, "<Routes>\n</Routes>")].length
          = (([(pageBase "About" ++ ".js", ""), (pageBase "About" ++ ".stories.js", ""),
              (pageBase "About" ++ ".test.js", "")] : List (String × String)).map Prod.fst).length) :=
  ⟨by rfl,
    C2_destroy_removes_exactly_generated ⟨"About", true, true, none⟩
      [(pageBase "About" ++ ".js", ""), (pageBase "About" ++ ".stories.js", ""),
        (pageBase "About" ++ ".test.js", "")]
      [(webRoutesPath, "<Routes>\n</Routes>")] (by rfl) (by decide)⟩

/-- C3: when no route-table line matches the destroy target, the
route-edit task leaves the whole file system — and in particular the
route-table text — unchanged, and reports no error. -/
theorem C3_route_edit_no_match_noop (opts : PageOptions) (fs : FS)
    (content : String) (hread : fsRead webRoutesPath fs = some content)
    (hzero : (splitLines content.data).countP (lineMatch opts) = 0) :
    routeEditRun opts fs = (fs, none) := by
  have hid : removeRouteLine opts content = content := by
    unfold removeRouteLine
    rw [removeFirst_of_countP_zero _ _ hzero, joinLines_splitLines]
  simp only [routeEditRun, hread, hid, fsWrite_fsRead _ _ _ hread]

/-- C3 witness: destroying `About` against a route table with no matching
entry. -/
theorem C3_route_edit_witness :
    fsRead webRoutesPath [(webRoutesPath, "<Routes>\n  <Route path=\"/\" page={HomePage} name=\"home\" />\n</Routes>")]
        = some "<Routes>\n  <Route path=\"/\" page={HomePage} name=\"home\" />\n</Routes>"
      ∧ (splitLines ("<Routes>\n  <Route path=\"/\" page={HomePage} name=\"home\" />\n</Routes>").data).countP
          (lineMatch ⟨"About", false, false, none⟩) = 0
      ∧ routeEditRun ⟨"About", false, false, none⟩
          [(webRoutesPath, "<Routes>\n  <Route path=\"/\" page={HomePage} name=\"home\" />\n</Routes>")]
        = ([(webRoutesPath, "<Routes>\n  <Route path=\"/\" page={HomePage} name=\"home\" />\n</Routes>")], none) :=
  ⟨by decide, by decide,
    C3_route_edit_no_match_noop ⟨"About", false, false, none⟩
      [(webRoutesPath, "<Routes>\n  <Route path=\"/\" page={HomePage} name=\"home\" />\n</Routes>")]
      "<Routes>\n  <Route path=\"/\" page={HomePage} name=\"home\" />\n</Routes>"
      (by decide) (by decide)⟩

/-- C5: for a resolvable target the task list builder returns exactly two
inert tasks, in order: first delete each generated file, then rewrite the
route table; each task is a name paired with its deferred run operation,
and nothing is executed by building the list. -/
theorem C5_task_list_order (opts : PageOptions) (f : List (String × String))
    (hf : files opts = Except.ok f) :
    tasks opts = Except.ok
      [ ⟨"Destroying page files...", deleteFilesRun (f.map Prod.fst)⟩,
        ⟨"Cleaning up route file...", routeEditRun opts⟩ ] := by
  unfold tasks
  rw [hf]
  rfl

/-- C5 witness: the `About` page target. -/
theorem C5_task_list_witness :
    tasks ⟨"About", false, false, none⟩ = Except.ok
      [ ⟨"Destroying page files...",
          deleteFilesRun (([(pageBase "About" ++ ".js", "")] : List (String × String)).map Prod.fst)⟩,
        ⟨"Cleaning up route file...", routeEditRun ⟨"About", false, false, none⟩⟩ ] :=
  C5_task_list_order ⟨"About", false, false, none⟩ [(pageBase "About" ++ ".js", "")] (by rfl)

/-- C6: the path/name resolver is a deterministic pure function of the
entity name and the options: on a valid name, any two targets with equal
name and equal options resolve to the same file set, successfully. -/
theorem C6_resolver_deterministic (o1 o2 : PageOptions)
    (hv : validIdent o1.name = true) (hn : o1.name = o2.name)
    (hs : o1.stories = o2.stories) (ht : o1.tests = o2.tests)
    (hp : o1.path = o2.path) :
    ∃ fs, files o1 = Except.ok fs ∧ files o2 = Except.ok fs := by
  obtain ⟨n1, s1, t1, p1⟩ := o1
  obtain ⟨n2, s2, t2, p2⟩ := o2
  dsimp only at hv hn hs ht hp
  subst hn; subst hs; subst ht; subst hp
  exact ⟨_, by unfold files; rw [if_pos hv], by unfold files; rw [if_pos hv]⟩

/-- C6 witness. -/
theorem C6_resolver_witness :
    ∃ fs, files ⟨"About", true, false, none⟩ = Except.ok fs
      ∧ files ⟨"About", true, false, none⟩ = Except.ok fs :=
  C6_resolver_deterministic ⟨"About", true, false, none⟩ ⟨"About", true, false, none⟩
    (by decide) rfl rfl rfl rfl

/-- C7: a destroy target carrying a custom path option matches — and
removes — the route entry carrying that custom path, independent of the
default path derived from the name: the target's route path is the custom
path itself, any line holding that path attribute matches, and a uniquely
matching line is removed exactly. -/
theorem C7_custom_path_removal (opts : PageOptions) (custom : String)
    (hp : opts.path = some custom) :
    routeTargetPath opts = custom
      ∧ (∀ line : List Char,
          charsContain ("path=\"" ++ custom ++ "\"").data line = true →
            lineMatch opts line = true)
      ∧ (∀ text : String,
          (splitLines text.data).countP (lineMatch opts) = 1 →
            removeRouteLine opts text
              = String.mk (joinLines
                  ((splitLines text.data).filter (fun l => ! lineMatch opts l)))) := by
  have h1 : routeTargetPath opts = custom := by
    simp [routeTargetPath, hp]
  refine ⟨h1, ?_, ?_⟩
  · intro line hl
    simp only [lineMatch, h1, Bool.or_eq_true]
    left
    simpa using hl
  · intro text h
    unfold removeRouteLine
    rw [removeFirst_eq_filter_of_countP_one _ _ h]

/-- C7 witness: the `About` target with custom path `/about-us` matches
the `/about-us` route line and removes it. -/
theorem C7_custom_path_witness :
    routeTargetPath ⟨"About", false, false, some "/about-us"⟩ = "/about-us"
      ∧ lineMatch ⟨"About", false, false, some "/about-us"⟩
          ("  <Route path=\"/about-us\" page={AboutPage} name=\"aboutUs\" />").data = true
      ∧ removeRouteLine ⟨"About", false, false, some "/about-us"⟩
            "<Routes>\n  <Route path=\"/about-us\" page={AboutPage} name=\"aboutUs\" />\n</Routes>"
          = String.mk (joinLines
              ((splitLines ("<Routes>\n  <Route path=\"/about-us\" page={AboutPage} name=\"aboutUs\" />\n</Routes>").data).filter
                (fun l => ! lineMatch ⟨"About", false, false, some "/about-us"⟩ l))) := by
  have h := C7_custom_path_removal ⟨"About", false, false, some "/about-us"⟩ "/about-us" rfl
  exact ⟨h.1, h.2.1 _ (by decide), h.2.2 _ (by decide)⟩

end DestroyPage

/-! ## Theorems: type-generation command -/

namespace TypesGen

theorem isEmpty_false_of_ne_nil {l : List α} (h : l ≠ []) : l.isEmpty = false := by
  cases l with
  | nil => exact absurd rfl h
  | cons a as => rfl

/-- C4: the pipeline collects per-task errors without stopping — the
error list of `generate` is the schema errors followed by the
type-definition errors, both phases always contributing; starting from a
fresh process the exit status is non-zero exactly when that aggregated
list is non-empty; and when it is non-empty, the output ends with a block
printing, for every collected error, its human-readable message and its
underlying cause. -/
theorem C4_run_error_aggregation (base : String) (sr : SchemaResult)
    (tr : TypeDefsResult) :
    ((run base 0 sr tr).2 ≠ 0 ↔ sr.errors ++ tr.errors ≠ [])
      ∧ (generate sr tr).errors = sr.errors ++ tr.errors
      ∧ (sr.errors ++ tr.errors ≠ [] →
          (run base 0 sr tr).1
            = ([OutLine.log "Generating...", OutLine.log ""]
                ++ (generate sr tr).files.map
                  (fun f => OutLine.log ("- " ++ jsReplace (jsAsString f) (base ++ "/") ""))
                ++ [OutLine.log "", OutLine.log "... done with errors.", OutLine.log ""])
              ++ (sr.errors ++ tr.errors).flatMap
                (fun e => [OutLine.err e.message, OutLine.log "",
                  OutLine.err e.error, OutLine.log ""])) := by
  refine ⟨?_, rfl, ?_⟩
  · by_cases h : sr.errors ++ tr.errors = []
    · have hemp : ((generate sr tr).errors).isEmpty = true := by
        show (sr.errors ++ tr.errors).isEmpty = true
        rw [h]; rfl
      simp [run, hemp, h]
    · have hemp : ((generate sr tr).errors).isEmpty = false :=
        isEmpty_false_of_ne_nil h
      simp [run, hemp, h]
  · intro h
    have hemp : ((generate sr tr).errors).isEmpty = false :=
      isEmpty_false_of_ne_nil h
    simp only [run, hemp, Bool.false_eq_true, if_false]
    simp [generate, List.append_assoc]

/-- C4 witness: one schema error and one type-definition error. -/
theorem C4_run_witness :
    ((run "/proj" 0 srW trW).2 ≠ 0 ↔ srW.errors ++ trW.errors ≠ [])
      ∧ (run "/proj" 0 srW trW).1
          = ([OutLine.log "Generating...", OutLine.log ""]
              ++ (generate srW trW).files.map
                (fun f => OutLine.log ("- " ++ jsReplace (jsAsString f) ("/proj" ++ "/") ""))
              ++ [OutLine.log "", OutLine.log "... done with errors.", OutLine.log ""])
            ++ (srW.errors ++ trW.errors).flatMap
              (fun e => [OutLine.err e.message, OutLine.log "",
                OutLine.err e.error, OutLine.log ""]) := by
  have h := C4_run_error_aggregation "/proj" srW trW
  exact ⟨h.1, h.2.2 (by decide)⟩

/-- C8: `generate` returns a files list containing only string entries —
the empty schema path is excluded, a non-empty one is included first,
non-string type-definition entries are filtered out — and its error list
is the schema errors followed by the type-definition errors. -/
theorem C8_generate_files_strings (sr : SchemaResult) (tr : TypeDefsResult) :
    (∀ v ∈ (generate sr tr).files, jsIsString v = true)
      ∧ (sr.schemaPath = "" →
          (generate sr tr).files = tr.typeDefFiles.filter jsIsString)
      ∧ (sr.schemaPath ≠ "" →
          (generate sr tr).files
            = JsVal.str sr.schemaPath :: tr.typeDefFiles.filter jsIsString)
      ∧ (generate sr tr).errors = sr.errors ++ tr.errors := by
  refine ⟨?_, ?_, ?_, rfl⟩
  · intro v hv
    exact List.of_mem_filter hv
  · intro h
    simp [generate, h]
  · intro h
    simp [generate, h, List.filter_cons, jsIsString]

/-- C8 witness: an empty schema path and a mixed type-definition list. -/
theorem C8_generate_witness :
    (∀ v ∈ (generate srW8 trW8).files, jsIsString v = true)
      ∧ (generate srW8 trW8).files = trW8.typeDefFiles.filter jsIsString
      ∧ (generate srW8 trW8).errors = srW8.errors ++ trW8.errors := by
  have h := C8_generate_files_strings srW8 trW8
  exact ⟨h.1, h.2.1 rfl, h.2.2.2⟩

end TypesGen

/-! ## Theorems: API-server option resolution -/

namespace ServerHelpers

/-- C9: with argument parsing enabled, a supplied non-empty `--port` value
whose numeric coercion is NaN makes `resolveOptions` throw
`` `port` must be an integer``; a value that does coerce sets the resolved
port to that coercion; and with no host, port, or apiRootPath argument and
no apiRootPath option the defaults `getAPIHost()`, `getAPIPort()` and `/`
are kept. -/
theorem C9_resolveOptions_port {L : Type} (env : ApiEnv L)
    (options : CreateServerOptions L) (values : ParsedValues)
    (hparse : options.parseArgs = some true) :
    (∀ p, values.port = some p → p ≠ "" → env.toNumber p = none →
        resolveOptions env options values = Except.error "`port` must be an integer")
      ∧ (∀ p n, values.port = some p → p ≠ "" → env.toNumber p = some n →
          ∃ r, resolveOptions env options values = Except.ok r ∧ r.port = n)
      ∧ (values.host = none → values.port = none → values.apiRootPath = none →
          options.apiRootPath = none →
          ∃ r, resolveOptions env options values = Except.ok r
            ∧ r.apiRootPath = "/" ∧ r.host = env.apiHost ∧ r.port = env.apiPort) := by
  obtain ⟨vh, vp, va⟩ := values
  refine ⟨?_, ?_, ?_⟩
  · rintro p rfl hne hnan
    simp [resolveOptions, hparse, hne, hnan]
  · rintro p n rfl hne hnum
    cases va with
    | none =>
      simp only [resolveOptions, hparse, Option.getD_some, if_true, hne, ne_eq,
        not_false_eq_true, ite_true, hnum]
      exact ⟨_, rfl, rfl⟩
    | some a =>
      by_cases ha : a = ""
      · simp only [resolveOptions, hparse, Option.getD_some, if_true, hne, ne_eq,
          not_false_eq_true, ite_true, hnum, ha, not_true_eq_false, ite_false]
        exact ⟨_, rfl, rfl⟩
      · simp only [resolveOptions, hparse, Option.getD_some, if_true, hne, ne_eq,
          not_false_eq_true, ite_true, hnum, ha]
        exact ⟨_, rfl, rfl⟩
  · rintro rfl rfl rfl
    intro hrp
    simp only [resolveOptions, hparse, hrp, Option.getD_some, Option.getD_none, if_true]
    refine ⟨_, rfl, ?_, rfl, rfl⟩
    show coerceRootPath "/" = "/"
    decide

/-- C9 witness: port `abc` is rejected, port `4000` resolves to `4000`,
and no arguments keep the environment defaults. -/
theorem C9_resolveOptions_witness :
    resolveOptions envW optionsW valuesPortBad = Except.error "`port` must be an integer"
      ∧ (∃ r, resolveOptions envW optionsW valuesPortGood = Except.ok r ∧ r.port = 4000)
      ∧ (∃ r, resolveOptions envW optionsW valuesNone = Except.ok r
          ∧ r.apiRootPath = "/" ∧ r.host = envW.apiHost ∧ r.port = envW.apiPort) :=
  ⟨(C9_resolveOptions_port envW optionsW valuesPortBad rfl).1 "abc" rfl (by decide) rfl,
    (C9_resolveOptions_port envW optionsW valuesPortGood rfl).2.1 "4000" 4000 rfl (by decide) rfl,
    (C9_resolveOptions_port envW optionsW valuesNone rfl).2.2 rfl rfl rfl rfl⟩

end ServerHelpers

/-! ## Theorems: the `Link` click handler -/

namespace Router

/-- C10: a click with a non-primary button or any modifier key leaves the
handler without preventing the default or navigating; otherwise the
default is prevented and `navigate(to)` fires, except when the
user-supplied `onClick` returns the boolean `false`. -/
theorem C10_link_click (toUrl : String)
    (onClick : Option (ClickEvent → ClickResult)) (e : ClickEvent) :
    ((e.button ≠ 0 ∨ e.altKey = true ∨ e.ctrlKey = true ∨ e.metaKey = true
          ∨ e.shiftKey = true) →
        linkClickHandler toUrl onClick e = ⟨false, none⟩)
      ∧ (e.button = 0 → e.altKey = false → e.ctrlKey = false →
          e.metaKey = false → e.shiftKey = false →
          linkClickHandler toUrl onClick e
            = ⟨true, if blocksNav onClick e then none else some toUrl⟩) := by
  constructor
  · intro h
    have hb : (e.button != 0 || e.altKey || e.ctrlKey || e.metaKey || e.shiftKey) = true := by
      rcases h with h | h | h | h | h <;> simp [h]
    simp [linkClickHandler, hb]
  · intro h0 ha hc hm hs
    have hb : (e.button != 0 || e.altKey || e.ctrlKey || e.metaKey || e.shiftKey) = false := by
      simp [h0, ha, hc, hm, hs]
    simp only [linkClickHandler, hb, Bool.false_eq_true, if_false, blocksNav]
    cases onClick with
    | none => rfl
    | some f =>
      cases hf : f e with
      | boolean b => cases b <;> simp [hf]
      | nonBoolean => simp [hf]

/-- C10 witness: a middle click is ignored; a plain click navigates when
there is no user handler and is blocked when the handler returns the
boolean `false`. -/
theorem C10_link_click_witness :
    linkClickHandler "/about" none middleClick = ⟨false, none⟩
      ∧ linkClickHandler "/about" none plainClick
          = ⟨true, if blocksNav none plainClick then none else some "/about"⟩
      ∧ linkClickHandler "/about" (some onClickFalse) plainClick
          = ⟨true, if blocksNav (some onClickFalse) plainClick then none else some "/about"⟩ :=
  ⟨(C10_link_click "/about" none middleClick).1 (Or.inl (by decide)),
    (C10_link_click "/about" none plainClick).2 rfl rfl rfl rfl rfl,
    (C10_link_click "/about" (some onClickFalse) plainClick).2 rfl rfl rfl rfl rfl⟩

end Router

end Redwood
